import Mathlib

/-!
Shallow embedding of `src/report_app.py` (WPCS report generator).

The program is a single pipeline `generate_report(input_file, output_file)`:
 * loader: dispatch on the file extension (`input_file.split(".")[-1].lower()`),
   xlsx/xls via `pd.read_excel`, csv via `pd.read_csv`, otherwise
   `ValueError("Unsupported file format...")`;
 * transformer: select/rename five columns (KeyError if one is missing),
   `pd.to_datetime(..., errors='coerce')` + `dropna` on the work date,
   allow-list filter on machines "A01".."A38", groupby max date and groupby
   sums merged on the machine key, derived ratio column
   `round(wpc/worked*100, 2)` guarded by `worked != 0`, threshold filter
   `WPCS % >= 20`, grand totals over the filtered frame;
 * renderer: write both tables to one sheet, then restyle and save; the whole
   body sits in one `try/except` that shows a single messagebox.

Numeric cells are modelled as rationals, dates as naturals (the parsed value
of an ISO date, ordered like the calendar).  Python's 2-decimal `round` is
modelled as rounding of `q * 100` to the nearest integer.
-/

namespace ReportApp

/-- Python's `str.split(sep)` for a one-character separator, on a list of
characters: splits at every occurrence, keeping empty segments. -/
def splitCharAux (c : Char) : List Char → List (List Char)
  | [] => [[]]
  | x :: xs =>
    match splitCharAux c xs with
    | [] => if x = c then [[], []] else [[x]]
    | g :: gs => if x = c then [] :: g :: gs else (x :: g) :: gs

/-- Lower-casing of a string, character by character (models `str.lower()`). -/
def toLowerStr (s : String) : String := String.mk (s.data.map Char.toLower)

/-- `input_file.split(".")[-1]`: the text after the last dot (the whole path
when there is no dot). -/
def rawExt (p : String) : String := String.mk ((splitCharAux '.' p.data).getLastD [])

/-- Line 16 of the source: `file_ext = input_file.split(".")[-1].lower()`. -/
def fileExt (p : String) : String := toLowerStr (rawExt p)

/-- Error taxonomy of the pipeline (the source raises `ValueError` for an
unsupported extension and pandas raises `KeyError` naming the missing
column). -/
inductive PipeError where
  | unsupportedFormat
  | missingColumn (c : String)
deriving DecidableEq

/-- Which reader lines 18-23 choose for the input file. -/
inductive LoadMode where
  | excel
  | csv
deriving DecidableEq

/-- Lines 16-23: dispatch on the lower-cased extension.  `xlsx`/`xls` go to
`pd.read_excel`, `csv` to `pd.read_csv`, anything else raises before any file
is read. -/
def loadMode (p : String) : Except PipeError LoadMode :=
  if (["xlsx", "xls"]).contains (fileExt p) then .ok .excel
  else if fileExt p = "csv" then .ok .csv
  else .error .unsupportedFormat

/-- A raw cell of the loaded table: a text or a numeric value. -/
inductive Cell where
  | str (s : String)
  | num (q : ℚ)
deriving DecidableEq

/-- The in-memory table produced by the loader: the column names and the
rows, each row a mapping from column name to cell. -/
structure Table where
  cols : List String
  rows : List (List (String × Cell))
deriving DecidableEq

/-- The loader: chooses the reader from the extension and, only when the
extension is recognised, yields the file's tabular content (abstracted as a
`Table`, since the bytes-to-table decoding is pandas library code). -/
def loadTable (p : String) (content : Table) : Except PipeError Table :=
  (loadMode p).map (fun _ => content)

/-- Lines 28-34, the keys of `column_map`: the five required source columns,
in order. -/
def requiredCols : List String :=
  ["Work date", "Shift", "Machine", "Q`ty", "WPCS Qty"]

/-- One row after `df[list(column_map.keys())].rename(columns=column_map)`:
exactly the five selected fields, under their canonical names. -/
structure SelectedRow where
  workDate : String
  shift : String
  machine : String
  worked : ℚ
  wpc : ℚ
deriving DecidableEq

/-- The text of a cell (the work-date column is fed to the date parser as
it stands). -/
def cellText : Cell → String
  | .str s => s
  | .num q => toString q

/-- The numeric value of a cell (quantity columns hold numbers). -/
def cellNum : Cell → ℚ
  | .str _ => 0
  | .num q => q

/-- Look a column up in a row. -/
def getCell (r : List (String × Cell)) (c : String) : Cell :=
  match r.find? (fun p => p.1 = c) with
  | some p => p.2
  | none => Cell.str (String.mk [])

/-- Projection of one raw row to the five selected fields. -/
def projectRow (r : List (String × Cell)) : SelectedRow :=
  { workDate := cellText (getCell r (requiredCols.get ⟨0, by decide⟩))
    shift := cellText (getCell r (requiredCols.get ⟨1, by decide⟩))
    machine := cellText (getCell r (requiredCols.get ⟨2, by decide⟩))
    worked := cellNum (getCell r (requiredCols.get ⟨3, by decide⟩))
    wpc := cellNum (getCell r (requiredCols.get ⟨4, by decide⟩)) }

/-- Line 36: `df_selected = df[list(column_map.keys())].rename(...)`.
Selecting raises a `KeyError` naming the first missing required column when
one is absent; otherwise every row is projected to the five canonical
fields. -/
def selectAndRename (t : Table) : Except PipeError (List SelectedRow) :=
  match requiredCols.find? (fun c => !(t.cols.contains c)) with
  | some c => .error (.missingColumn c)
  | none => .ok (t.rows.map projectRow)

/-- All-digit check for a date component. -/
def digitsToNat? (s : String) : Option Nat :=
  if s.data ≠ [] ∧ s.data.all Char.isDigit then
    some (s.data.foldl (fun n c => n * 10 + (c.toNat - 48)) 0)
  else none

/-- Modelled from the spec: the permissive date parsing of line 41,
`pd.to_datetime(df_selected['work date'], errors='coerce')`, is pandas
library code not in this repository; we model it on ISO `YYYY-MM-DD` text.
A date parses when it is three dash-separated digit groups with a month in
1..12 and a day in 1..31, and is encoded as `y*10000 + m*100 + d`, whose
natural-number order is the calendar order; anything else coerces to
missing. -/
def parseDate (s : String) : Option Nat :=
  match (splitCharAux '-' s.data).map (fun g => digitsToNat? (String.mk g)) with
  | [some y, some m, some d] =>
    if 1 ≤ m ∧ m ≤ 12 ∧ 1 ≤ d ∧ d ≤ 31 then some (y * 10000 + m * 100 + d)
    else none
  | _ => none

/-- A row after date parsing succeeded: the work date is now a calendar
date. -/
structure ParsedRow where
  workDate : Nat
  shift : String
  machine : String
  worked : ℚ
  wpc : ℚ
deriving DecidableEq

/-- Lines 41-42: parse every row's work date and drop the rows whose date
coerced to missing (`dropna(subset=['work date'])`). -/
def dropUnparseable (rows : List SelectedRow) : List ParsedRow :=
  rows.filterMap (fun r =>
    (parseDate r.workDate).map (fun d =>
      { workDate := d, shift := r.shift, machine := r.machine
        worked := r.worked, wpc := r.wpc }))

/-- Two-digit zero padding, `f"{i:02d}"` for the machine numbers. -/
def pad2 (i : Nat) : String :=
  if i < 10 then String.mk ('0' :: (Nat.repr i).data) else Nat.repr i

/-- Line 47: `allowed_machines = [f"A{i:02d}" for i in range(1, 39)]`. -/
def allowedMachines : List String :=
  (List.range' 1 38).map (fun i => String.mk ('A' :: (pad2 i).data))

/-- Line 48: keep only rows whose machine is in the allow-list
(`df_selected[df_selected["machine"].isin(allowed_machines)]`). -/
def filterAllowed (rows : List ParsedRow) : List ParsedRow :=
  rows.filter (fun r => allowedMachines.contains r.machine)

/-- Sorted insertion of a machine key, skipping duplicates: pandas `groupby`
produces one group per distinct key, sorted ascending. -/
def insertKey (s : String) : List String → List String
  | [] => [s]
  | t :: ts =>
    if s = t then t :: ts
    else if s < t then s :: t :: ts
    else t :: insertKey s ts

/-- The distinct machine keys of the filtered rows, in ascending order (the
group keys of `df_filtered.groupby("machine")`). -/
def groupKeys (rows : List ParsedRow) : List String :=
  (rows.map (fun r => r.machine)).foldl (fun acc m => insertKey m acc) []

/-- The latest work date within the group of machine `m`. -/
def groupLast (rows : List ParsedRow) (m : String) : Nat :=
  ((rows.filter (fun r => r.machine = m)).map (fun r => r.workDate)).foldl Nat.max 0

/-- The summed worked quantity of the group of machine `m`. -/
def groupWorked (rows : List ParsedRow) (m : String) : ℚ :=
  ((rows.filter (fun r => r.machine = m)).map (fun r => r.worked)).sum

/-- The summed WPC quantity of the group of machine `m`. -/
def groupWpc (rows : List ParsedRow) (m : String) : ℚ :=
  ((rows.filter (fun r => r.machine = m)).map (fun r => r.wpc)).sum

/-- Lines 53-54: `df_filtered.groupby("machine")["work date"].max()` — the
latest work date of each machine group. -/
def lastDates (rows : List ParsedRow) : List (String × Nat) :=
  (groupKeys rows).map (fun m => (m, groupLast rows m))

/-- Line 59: `df_filtered.groupby("machine")[["worked Q'ty", "WPC qty"]].sum()`
— the two quantity sums of each machine group. -/
def sumQty (rows : List ParsedRow) : List (String × ℚ × ℚ) :=
  (groupKeys rows).map (fun m => (m, groupWorked rows m, groupWpc rows m))

/-- One machine row of `summary_df` before the ratio column is added. -/
structure SummaryRow where
  machine : String
  lastWorkDate : Nat
  worked : ℚ
  wpc : ℚ
deriving DecidableEq

/-- Association-list lookup by machine key. -/
def lookupKey {α : Type} (m : String) : List (String × α) → Option α
  | [] => none
  | p :: ps => if p.1 = m then some p.2 else lookupKey m ps

/-- Line 64: `pd.merge(last_dates, sum_qty, on="machine")` — the inner join
of the two per-machine aggregates on the machine key. -/
def mergeSummary (ld : List (String × Nat)) (sq : List (String × ℚ × ℚ)) :
    List SummaryRow :=
  ld.filterMap (fun p =>
    (lookupKey p.1 sq).map (fun q =>
      { machine := p.1, lastWorkDate := p.2, worked := q.1, wpc := q.2 }))

/-- Lines 53-64 combined: the merged per-machine summary. -/
def summaryBase (rows : List ParsedRow) : List SummaryRow :=
  mergeSummary (lastDates rows) (sumQty rows)

/-- Python's `round(x, 2)` on our rational model: round `x * 100` to the
nearest integer and scale back. -/
def round2 (q : ℚ) : ℚ := (round (q * 100) : ℤ) / 100

/-- A machine row of `summary_df` after line 69 added the `WPCS %` column. -/
structure PctRow where
  machine : String
  lastWorkDate : Nat
  worked : ℚ
  wpc : ℚ
  wpcs : ℚ
deriving DecidableEq

/-- Lines 69-71, the per-row lambda:
`round((row['WPC qty'] / row["worked Q'ty"]) * 100, 2) if row["worked Q'ty"] != 0 else 0`. -/
def withPct (r : SummaryRow) : PctRow :=
  { machine := r.machine, lastWorkDate := r.lastWorkDate
    worked := r.worked, wpc := r.wpc
    wpcs := if r.worked ≠ 0 then round2 (r.wpc / r.worked * 100) else 0 }

/-- Lines 69-71: add the derived `WPCS %` column to every machine row. -/
def addPct (rows : List SummaryRow) : List PctRow := rows.map withPct

/-- Line 76: `summary_df = summary_df[summary_df['WPCS %'] >= 20]`. -/
def applyThreshold (rows : List PctRow) : List PctRow :=
  rows.filter (fun r => 20 ≤ r.wpcs)

/-- The final `summary_df`: the whole transformer on the selected rows. -/
def machineSummary (rows : List SelectedRow) : List PctRow :=
  applyThreshold (addPct (summaryBase (filterAllowed (dropUnparseable rows))))

/-- The single synthetic grand-total record of lines 85-89. -/
structure GrandTotal where
  worked : ℚ
  wpc : ℚ
  pct : ℚ
deriving DecidableEq

/-- Lines 81-89: totals over the post-filter `summary_df`, the ratio guarded
by `total_worked_qty != 0`. -/
def grandTotalOf (s : List PctRow) : GrandTotal :=
  { worked := (s.map (fun r => r.worked)).sum
    wpc := (s.map (fun r => r.wpc)).sum
    pct :=
      if (s.map (fun r => r.worked)).sum ≠ 0 then
        round2 ((s.map (fun r => r.wpc)).sum / (s.map (fun r => r.worked)).sum * 100)
      else 0 }

/-- The transformer's two outputs: the machine table and the grand total. -/
def transform (rows : List SelectedRow) : List PctRow × GrandTotal :=
  (machineSummary rows, grandTotalOf (machineSummary rows))

/-- Column selection plus the whole transformer on a loaded table: lines
28-89.  A `KeyError` from the selection propagates; otherwise the transformer
runs to completion. -/
def runTransform (t : Table) : Except PipeError (List PctRow × GrandTotal) :=
  match selectAndRename t with
  | .error e => .error e
  | .ok rows => .ok (transform rows)

/-- Loader dispatch plus column selection plus the whole transformer: the
fallible part of `generate_report` up to the two result tables. -/
def runPipeline (p : String) (content : Table) :
    Except PipeError (List PctRow × GrandTotal) :=
  match loadTable p content with
  | .error e => .error e
  | .ok t => runTransform t

/-- Terminal outcome of one invocation. -/
inductive RunOutcome where
  | success
  | failure
deriving DecidableEq

/-- Observable effects of one `generate_report` call: whether the output
file is on disk afterwards, how many messageboxes the caller saw, and the
terminal outcome. -/
structure RunResult where
  fileOnDisk : Bool
  callerMessages : Nat
  outcome : RunOutcome
deriving DecidableEq

/-- Lines 11-163, the whole `try/except` body as a state machine over the
output file.  The `with pd.ExcelWriter(output_file, ...)` block (lines 94-97)
is the first write to the output path and runs only after the transformer
succeeded; the styling/save phase (lines 102-158) runs on the already
written file and may itself raise (modelled by `renderFails`, e.g. an I/O
error in `wb.save`).  The `except` arm (lines 162-163) only shows one error
messagebox — it deletes nothing. -/
def generateReport (p : String) (content : Table) (renderFails : Bool) :
    RunResult :=
  match runPipeline p content with
  | .error _ => { fileOnDisk := false, callerMessages := 1, outcome := .failure }
  | .ok _ =>
    if renderFails then
      { fileOnDisk := true, callerMessages := 1, outcome := .failure }
    else
      { fileOnDisk := true, callerMessages := 1, outcome := .success }

/-- The four input rows of the spec's worked example, already in selected
form. -/
def exRows : List SelectedRow :=
  [ { workDate := "2024-01-05", shift := String.mk [], machine := "A01", worked := 100, wpc := 30 },
    { workDate := "2024-01-06", shift := String.mk [], machine := "A01", worked := 50, wpc := 5 },
    { workDate := "2024-01-01", shift := String.mk [], machine := "A99", worked := 10, wpc := 10 },
    { workDate := "bad-date", shift := String.mk [], machine := "A02", worked := 5, wpc := 5 } ]

/-- The single machine row the worked example should produce. -/
def exOut : PctRow :=
  { machine := "A01", lastWorkDate := 20240106, worked := 150, wpc := 35, wpcs := 2333 / 100 }

/-- A one-row input whose machine group has a zero worked quantity. -/
def exRows0 : List SelectedRow :=
  [ { workDate := "2024-02-01", shift := String.mk [], machine := "A05", worked := 0, wpc := 7 } ]

/-- The ratio row of `exRows0` before the threshold filter. -/
def exOut0 : PctRow :=
  { machine := "A05", lastWorkDate := 20240201, worked := 0, wpc := 7, wpcs := 0 }

/-- A loaded table carrying all five required columns and the `exRows0`
row. -/
def exTable0 : Table :=
  { cols := ["Work date", "Shift", "Machine", "Q`ty", "WPCS Qty"]
    rows := [ [ ("Work date", Cell.str ("2024-02-01")), ("Shift", Cell.str (String.mk [])),
                ("Machine", Cell.str ("A05")), ("Q`ty", Cell.num 0), ("WPCS Qty", Cell.num 7) ] ] }

/-- A loaded table that lacks the `Machine` column. -/
def exTableMissing : Table :=
  { cols := ["Work date", "Shift", "Q`ty", "WPCS Qty"], rows := [] }

/-- A csv input path. -/
def exPath : String := "in.csv"

/-- A row whose work date does not parse. -/
def exBadRow : SelectedRow :=
  { workDate := "bad-date", shift := String.mk [], machine := "A02", worked := 5, wpc := 5 }

end ReportApp

namespace ReportApp

lemma mem_insertKey (x s : String) (l : List String) :
    x ∈ insertKey s l ↔ x = s ∨ x ∈ l := by
  induction l with
  | nil => simp [insertKey]
  | cons t ts ih =>
    simp only [insertKey]
    by_cases h1 : s = t
    · subst h1
      rw [if_pos rfl]
      simp only [List.mem_cons]
      tauto
    · rw [if_neg h1]
      by_cases h2 : s < t
      · rw [if_pos h2]
        simp only [List.mem_cons]
      · rw [if_neg h2]
        simp only [List.mem_cons, ih]
        tauto

lemma mem_foldl_insertKey (ms : List String) :
    ∀ (acc : List String) (x : String),
      x ∈ ms.foldl (fun a m => insertKey m a) acc → x ∈ ms ∨ x ∈ acc := by
  induction ms with
  | nil => intro acc x h; exact Or.inr h
  | cons m ms ih =>
    intro acc x h
    rcases ih (insertKey m acc) x h with h1 | h2
    · exact Or.inl (List.mem_cons_of_mem _ h1)
    · rcases (mem_insertKey x m acc).mp h2 with rfl | h3
      · exact Or.inl (List.mem_cons_self _ _)
      · exact Or.inr h3

lemma mem_groupKeys (rows : List ParsedRow) (x : String) (h : x ∈ groupKeys rows) :
    ∃ r, r ∈ rows ∧ r.machine = x := by
  have h' : x ∈ (rows.map (fun r => r.machine)).foldl (fun a m => insertKey m a) [] := h
  rcases mem_foldl_insertKey (rows.map (fun r => r.machine)) [] x h' with h1 | h2
  · rcases List.mem_map.mp h1 with ⟨r, hr, he⟩
    exact ⟨r, hr, he⟩
  · cases h2

lemma lookupKey_sumQty (rows : List ParsedRow) (m : String) (h : m ∈ groupKeys rows) :
    lookupKey m (sumQty rows) = some (groupWorked rows m, groupWpc rows m) := by
  unfold sumQty
  have haux : ∀ ks : List String, m ∈ ks →
      lookupKey m (ks.map (fun k => (k, groupWorked rows k, groupWpc rows k))) =
        some (groupWorked rows m, groupWpc rows m) := by
    intro ks
    induction ks with
    | nil => intro h0; cases h0
    | cons k ks ih =>
      intro h0
      simp only [List.map, lookupKey]
      by_cases hk : k = m
      · subst hk
        rw [if_pos rfl]
      · rw [if_neg hk]
        rcases List.mem_cons.mp h0 with rfl | hm
        · exact absurd rfl hk
        · exact ih hm
  exact haux _ h

lemma mem_summaryBase (rows : List ParsedRow) (r : SummaryRow) :
    r ∈ summaryBase rows ↔
      ∃ m, m ∈ groupKeys rows ∧
        r = { machine := m, lastWorkDate := groupLast rows m,
              worked := groupWorked rows m, wpc := groupWpc rows m } := by
  unfold summaryBase mergeSummary lastDates
  constructor
  · intro h
    rcases List.mem_filterMap.mp h with ⟨p, hp, he⟩
    rcases List.mem_map.mp hp with ⟨m, hm, rfl⟩
    dsimp only at he
    rw [lookupKey_sumQty rows m hm] at he
    simp only [Option.map_some', Option.some.injEq] at he
    exact ⟨m, hm, he.symm⟩
  · rintro ⟨m, hm, rfl⟩
    apply List.mem_filterMap.mpr
    refine ⟨(m, groupLast rows m), List.mem_map.mpr ⟨m, hm, rfl⟩, ?_⟩
    dsimp only
    rw [lookupKey_sumQty rows m hm]
    rfl

lemma mem_machineSummary_iff (rows : List SelectedRow) (r : PctRow) :
    r ∈ machineSummary rows ↔
      (∃ s, s ∈ summaryBase (filterAllowed (dropUnparseable rows)) ∧ r = withPct s)
        ∧ 20 ≤ r.wpcs := by
  unfold machineSummary applyThreshold addPct
  rw [List.mem_filter]
  simp only [List.mem_map, decide_eq_true_eq]
  constructor
  · rintro ⟨⟨s, hs, rfl⟩, hp⟩
    exact ⟨⟨s, hs, rfl⟩, hp⟩
  · rintro ⟨⟨s, hs, rfl⟩, hp⟩
    exact ⟨⟨s, hs, rfl⟩, hp⟩

end ReportApp
namespace ReportApp

lemma contains_iff (l : List String) (x : String) : l.contains x = true ↔ x ∈ l := by
  induction l with
  | nil => simp [List.contains]
  | cons a as ih =>
    simp [List.contains] at ih ⊢

lemma ex_summaryBase :
    summaryBase (filterAllowed (dropUnparseable exRows)) =
      [{ machine := "A01", lastWorkDate := 20240106, worked := 150, wpc := 35 }] := by
  have h : summaryBase (filterAllowed (dropUnparseable exRows)) =
      [{ machine := "A01", lastWorkDate := 20240106,
         worked := (100 : ℚ) + (50 + 0), wpc := (30 : ℚ) + (5 + 0) }] := rfl
  rw [h]
  norm_num

lemma ex_addPct :
    addPct (summaryBase (filterAllowed (dropUnparseable exRows))) = [exOut] := by
  rw [ex_summaryBase]
  simp [addPct, withPct, exOut, round2, round_eq]
  norm_num

lemma ex_machineSummary : machineSummary exRows = [exOut] := by
  show applyThreshold (addPct (summaryBase (filterAllowed (dropUnparseable exRows)))) = [exOut]
  rw [ex_addPct]
  simp [applyThreshold, exOut]
  norm_num

lemma ex_grandTotal : grandTotalOf [exOut] =
    { worked := 150, wpc := 35, pct := 2333 / 100 } := by
  simp [grandTotalOf, exOut, round2, round_eq]
  norm_num

lemma ex0_summaryBase :
    summaryBase (filterAllowed (dropUnparseable exRows0)) =
      [{ machine := "A05", lastWorkDate := 20240201, worked := 0, wpc := 7 }] := by
  have h : summaryBase (filterAllowed (dropUnparseable exRows0)) =
      [{ machine := "A05", lastWorkDate := 20240201,
         worked := (0 : ℚ) + 0, wpc := (7 : ℚ) + 0 }] := rfl
  rw [h]
  norm_num

lemma ex0_addPct :
    addPct (summaryBase (filterAllowed (dropUnparseable exRows0))) = [exOut0] := by
  rw [ex0_summaryBase]
  simp [addPct, withPct, exOut0]

lemma ex0_machineSummary : machineSummary exRows0 = [] := by
  show applyThreshold (addPct (summaryBase (filterAllowed (dropUnparseable exRows0)))) = []
  rw [ex0_addPct]
  simp [applyThreshold, exOut0]

lemma dropUnparseable_filter_isSome (rows : List SelectedRow) :
    dropUnparseable (rows.filter (fun x => (parseDate x.workDate).isSome)) =
      dropUnparseable rows := by
  unfold dropUnparseable
  induction rows with
  | nil => rfl
  | cons a as ih =>
    cases hp : parseDate a.workDate with
    | none => simp [List.filter_cons, List.filterMap_cons, hp, ih]
    | some d => simp [List.filter_cons, List.filterMap_cons, hp, ih]

end ReportApp
namespace ReportApp

/-- C1: on the spec's four example rows the pipeline drops the `bad-date`
row at date parsing, excludes the `A99` row at the allow-list, and outputs
exactly one machine row — `A01`, last work date 2024-01-06, worked 150,
WPC 35, WPCS % 23.33 — with a grand total of 150 / 35 / 23.33. -/
theorem c1_example_scenario :
    transform exRows = ([exOut], { worked := 150, wpc := 35, pct := 2333 / 100 }) ∧
    (dropUnparseable exRows).map (fun r => r.machine) = ["A01", "A01", "A99"] ∧
    (filterAllowed (dropUnparseable exRows)).map (fun r => r.machine) = ["A01", "A01"] := by
  refine ⟨?_, rfl, rfl⟩
  show (machineSummary exRows, grandTotalOf (machineSummary exRows)) = _
  rw [ex_machineSummary, ex_grandTotal]

/-- C2: the grand total's worked quantity and WPC quantity are the sums over
exactly the post-threshold machine rows, and its percentage is the
zero-guarded rounded ratio of those two totals. -/
theorem c2_total_consistency (rows : List SelectedRow) :
    (transform rows).2.worked = ((machineSummary rows).map (fun r => r.worked)).sum ∧
    (transform rows).2.wpc = ((machineSummary rows).map (fun r => r.wpc)).sum ∧
    (transform rows).2.pct =
      (if ((machineSummary rows).map (fun r => r.worked)).sum ≠ 0 then
        round2 (((machineSummary rows).map (fun r => r.wpc)).sum /
          ((machineSummary rows).map (fun r => r.worked)).sum * 100)
      else 0) :=
  ⟨rfl, rfl, rfl⟩

/-- C3: every aggregated machine row carries, as `worked`, its group's
summed worked quantity, and its `WPCS %` is the rounded ratio when that sum
is nonzero and `0` when the sum is zero — the division is guarded. -/
theorem c3_ratio_guarded (rows : List SelectedRow) (r : PctRow)
    (h : r ∈ addPct (summaryBase (filterAllowed (dropUnparseable rows)))) :
    r.worked = groupWorked (filterAllowed (dropUnparseable rows)) r.machine ∧
    r.wpcs = (if r.worked ≠ 0 then round2 (r.wpc / r.worked * 100) else 0) := by
  rcases List.mem_map.mp h with ⟨s, hs, rfl⟩
  rcases (mem_summaryBase _ s).mp hs with ⟨m, hm, rfl⟩
  exact ⟨rfl, rfl⟩

/-- Witness for C3 at the spec's example: the surviving `A01` row. -/
theorem c3_ratio_guarded_witness :
    exOut.worked = groupWorked (filterAllowed (dropUnparseable exRows)) exOut.machine ∧
    exOut.wpcs = (if exOut.worked ≠ 0 then round2 (exOut.wpc / exOut.worked * 100) else 0) :=
  c3_ratio_guarded exRows exOut (by rw [ex_addPct]; exact List.mem_singleton.mpr rfl)

/-- C4: every row of the final machine table has `WPCS % ≥ 20`; the grand
total is computed from the post-threshold table; and an aggregated machine
row whose worked sum is `0` gets `WPCS % = 0` and is excluded from the
final table. -/
theorem c4_threshold (rows : List SelectedRow) (r : PctRow) :
    (r ∈ machineSummary rows → 20 ≤ r.wpcs) ∧
    (transform rows).2 = grandTotalOf (machineSummary rows) ∧
    (r ∈ addPct (summaryBase (filterAllowed (dropUnparseable rows))) → r.worked = 0 →
      r.wpcs = 0 ∧ r ∉ machineSummary rows) := by
  refine ⟨?_, rfl, ?_⟩
  · intro h
    exact ((mem_machineSummary_iff rows r).mp h).2
  · intro h h0
    have hw : r.wpcs = 0 := by
      rcases List.mem_map.mp h with ⟨s, hs, rfl⟩
      show (if s.worked ≠ 0 then round2 (s.wpc / s.worked * 100) else 0) = 0
      rw [if_neg]
      intro hne
      exact hne h0
    refine ⟨hw, ?_⟩
    intro hmem
    have h20 := ((mem_machineSummary_iff rows r).mp hmem).2
    rw [hw] at h20
    norm_num at h20

/-- Witness for C4: the example's `A01` row meets the threshold, and the
zero-worked `A05` machine of `exRows0` gets `WPCS % = 0` and is excluded. -/
theorem c4_threshold_witness :
    (20 ≤ exOut.wpcs) ∧ (exOut0.wpcs = 0 ∧ exOut0 ∉ machineSummary exRows0) := by
  constructor
  · exact (c4_threshold exRows exOut).1
      (by rw [ex_machineSummary]; exact List.mem_singleton.mpr rfl)
  · exact (c4_threshold exRows0 exOut0).2.2
      (by rw [ex0_addPct]; exact List.mem_singleton.mpr rfl) rfl

/-- C5: every machine in the final table is one of the 38 canonical codes
`A01`..`A38` (exact two-digit zero-padded strings), and any parsed row with
a machine outside the allow-list is silently excluded before aggregation. -/
theorem c5_allowlist (rows : List SelectedRow) (r : PctRow)
    (h : r ∈ machineSummary rows) :
    r.machine ∈ allowedMachines ∧
    allowedMachines =
      ["A01", "A02", "A03", "A04", "A05", "A06", "A07", "A08", "A09", "A10",
       "A11", "A12", "A13", "A14", "A15", "A16", "A17", "A18", "A19", "A20",
       "A21", "A22", "A23", "A24", "A25", "A26", "A27", "A28", "A29", "A30",
       "A31", "A32", "A33", "A34", "A35", "A36", "A37", "A38"] ∧
    ∀ q : ParsedRow, q.machine ∉ allowedMachines →
      q ∉ filterAllowed (dropUnparseable rows) := by
  refine ⟨?_, by decide, ?_⟩
  · rcases ((mem_machineSummary_iff rows r).mp h).1 with ⟨s, hs, rfl⟩
    rcases (mem_summaryBase _ s).mp hs with ⟨m, hm, rfl⟩
    show m ∈ allowedMachines
    rcases mem_groupKeys _ m hm with ⟨q, hq, hqm⟩
    have hc := (List.mem_filter.mp hq).2
    rw [hqm] at hc
    exact (contains_iff _ _).mp hc
  · intro q hq hmem
    exact hq ((contains_iff _ _).mp (List.mem_filter.mp hmem).2)

/-- Witness for C5 at the spec's example row. -/
theorem c5_allowlist_witness : exOut.machine ∈ allowedMachines :=
  (c5_allowlist exRows exOut
    (by rw [ex_machineSummary]; exact List.mem_singleton.mpr rfl)).1

end ReportApp
namespace ReportApp

/-- C6: if every required source column is present the selection succeeds
and keeps exactly the five projected, renamed columns; if one is absent the
whole transformer fails with a `missingColumn` error naming a missing
required column, so no later stage runs. -/
theorem c6_missing_column (t : Table) :
    ((∀ c, c ∈ requiredCols → c ∈ t.cols) →
      selectAndRename t = .ok (t.rows.map projectRow)) ∧
    ((∃ c, c ∈ requiredCols ∧ c ∉ t.cols) →
      ∃ c, c ∈ requiredCols ∧ c ∉ t.cols ∧
        runTransform t = .error (.missingColumn c)) := by
  constructor
  · intro hall
    unfold selectAndRename
    have hnone : requiredCols.find? (fun c => !(t.cols.contains c)) = none := by
      apply List.find?_eq_none.mpr
      intro c hc
      intro hx
      rw [(contains_iff _ _).mpr (hall c hc)] at hx
      exact Bool.noConfusion hx
    rw [hnone]
  · rintro ⟨c, hc, hnc⟩
    cases hfind : requiredCols.find? (fun c => !(t.cols.contains c)) with
    | none =>
      exfalso
      have h1 := List.find?_eq_none.mp hfind c hc
      apply hnc
      apply (contains_iff _ _).mp
      cases h2 : t.cols.contains c with
      | true => rfl
      | false => exact absurd (by rw [h2]; rfl) h1
    | some c2 =>
      have h1 := List.find?_some hfind
      have h2 : c2 ∈ requiredCols := List.mem_of_find?_eq_some hfind
      refine ⟨c2, h2, ?_, ?_⟩
      · intro hm
        rw [(contains_iff _ _).mpr hm] at h1
        exact Bool.noConfusion h1
      · unfold runTransform selectAndRename
        rw [hfind]

/-- Witness for C6: the complete table `exTable0` selects successfully, and
the table without a `Machine` column fails with `missingColumn`. -/
theorem c6_missing_column_witness :
    selectAndRename exTable0 = .ok (exTable0.rows.map projectRow) ∧
    (∃ c, c ∈ requiredCols ∧ c ∉ exTableMissing.cols ∧
      runTransform exTableMissing = .error (.missingColumn c)) := by
  constructor
  · exact (c6_missing_column exTable0).1 (by decide)
  · exact (c6_missing_column exTableMissing).2 ⟨"Machine", by decide, by decide⟩

/-- C7: the loader inspects the lower-cased text after the path's last dot:
`xlsx`/`xls` select the spreadsheet reader, `csv` the delimited-text reader,
and any other extension makes the pipeline fail with `unsupportedFormat`
whatever the file's content is. -/
theorem c7_extension_dispatch (p : String) :
    (toLowerStr (rawExt p) = "xlsx" ∨ toLowerStr (rawExt p) = "xls" →
      loadMode p = .ok .excel) ∧
    (toLowerStr (rawExt p) = "csv" → loadMode p = .ok .csv) ∧
    (toLowerStr (rawExt p) ≠ "xlsx" → toLowerStr (rawExt p) ≠ "xls" →
      toLowerStr (rawExt p) ≠ "csv" →
      ∀ c : Table, runPipeline p c = .error .unsupportedFormat) := by
  refine ⟨?_, ?_, ?_⟩
  · intro h
    unfold loadMode fileExt
    rw [if_pos]
    apply (contains_iff _ _).mpr
    rcases h with h | h <;> rw [h] <;> decide
  · intro h
    unfold loadMode fileExt
    rw [if_neg, if_pos h]
    intro hc
    have := (contains_iff _ _).mp hc
    rw [h] at this
    exact absurd this (by decide)
  · intro h1 h2 h3 c
    have hmode : loadMode p = .error .unsupportedFormat := by
      unfold loadMode fileExt
      rw [if_neg, if_neg h3]
      intro hc
      rcases List.mem_cons.mp ((contains_iff _ _).mp hc) with h | h
      · exact h1 h
      · rcases List.mem_cons.mp h with h | h
        · exact h2 h
        · cases h
    unfold runPipeline loadTable
    rw [hmode]
    rfl

/-- Witness for C7: an upper-case `.XLSX` path picks the spreadsheet reader,
a `.csv` path the text reader, and a `.txt` path fails whatever the
content. -/
theorem c7_extension_dispatch_witness :
    loadMode ("report.XLSX") = .ok .excel ∧
    loadMode ("data.csv") = .ok .csv ∧
    runPipeline ("notes.txt") exTable0 = .error .unsupportedFormat := by
  refine ⟨?_, ?_, ?_⟩
  · exact (c7_extension_dispatch ("report.XLSX")).1 (Or.inl (by decide))
  · exact (c7_extension_dispatch ("data.csv")).2.1 (by decide)
  · exact (c7_extension_dispatch ("notes.txt")).2.2 (by decide) (by decide) (by decide)
      exTable0

end ReportApp
namespace ReportApp

/-- C8 counterexample: a concrete invocation that fails during the
styling/save phase — after `pd.ExcelWriter` already wrote the output file —
ends in failure with the output file still on disk, contradicting the claim
that a failed run leaves no output file. -/
theorem c8_no_partial_output_counterexample :
    (generateReport exPath exTable0 true).outcome = .failure ∧
    (generateReport exPath exTable0 true).fileOnDisk = true := by
  constructor <;> rfl

/-- C8 as amended: every invocation informs the caller exactly once, and a
failure in the loader or transformer writes no output file; but a failure
after rendering has begun leaves the already-written output file on disk —
the `except` handler performs no cleanup. -/
theorem c8_single_report_no_cleanup (p : String) (c : Table) (rf : Bool) :
    (generateReport p c rf).callerMessages = 1 ∧
    (∀ e, runPipeline p c = .error e →
      generateReport p c rf =
        { fileOnDisk := false, callerMessages := 1, outcome := .failure }) ∧
    (∀ out, runPipeline p c = .ok out → rf = true →
      generateReport p c rf =
        { fileOnDisk := true, callerMessages := 1, outcome := .failure }) := by
  unfold generateReport
  cases hre : runPipeline p c with
  | error e =>
    exact ⟨rfl, fun e2 h2 => rfl, fun out h2 hrf => Except.noConfusion h2⟩
  | ok out =>
    cases rf with
    | true => exact ⟨rfl, fun e2 h2 => Except.noConfusion h2, fun out2 h2 hrf => rfl⟩
    | false => exact ⟨rfl, fun e2 h2 => Except.noConfusion h2,
        fun out2 h2 hrf => Bool.noConfusion hrf⟩

/-- Witness for C8 as amended: a render failure on a good csv input leaves
the file on disk; an unsupported-extension failure writes nothing; both
report exactly once. -/
theorem c8_single_report_no_cleanup_witness :
    generateReport exPath exTable0 true =
      { fileOnDisk := true, callerMessages := 1, outcome := .failure } ∧
    generateReport ("x.txt") exTable0 false =
      { fileOnDisk := false, callerMessages := 1, outcome := .failure } := by
  constructor
  · exact (c8_single_report_no_cleanup exPath exTable0 true).2.2 _ rfl rfl
  · exact (c8_single_report_no_cleanup ("x.txt") exTable0 false).2.1
      .unsupportedFormat rfl

/-- C9: rows whose work date does not parse are dropped without error and
contribute to no aggregate — the whole transform is unchanged when they are
removed from the input, and prepending such a row changes nothing already
at the date-parsing stage. -/
theorem c9_unparseable_dropped (rows : List SelectedRow) (r : SelectedRow) :
    transform rows = transform (rows.filter (fun x => (parseDate x.workDate).isSome)) ∧
    (parseDate r.workDate = none →
      dropUnparseable (r :: rows) = dropUnparseable rows) := by
  constructor
  · unfold transform machineSummary
    rw [dropUnparseable_filter_isSome]
  · intro h
    unfold dropUnparseable
    simp [List.filterMap_cons, h]

/-- Witness for C9: prepending the example's `bad-date` row to `exRows0`
leaves the parsed rows unchanged. -/
theorem c9_unparseable_dropped_witness :
    dropUnparseable (exBadRow :: exRows0) = dropUnparseable exRows0 :=
  (c9_unparseable_dropped exRows0 exBadRow).2 rfl

/-- C10: when the machine table ends up empty the pipeline still succeeds
(provided the file loaded and the five columns were present) and returns the
empty machine table with a grand total of 0 / 0 / 0, the zero-guard covering
the empty sums. -/
theorem c10_empty_report (p : String) (t : Table) (rows : List SelectedRow)
    (hl : loadTable p t = .ok t) (hs : selectAndRename t = .ok rows)
    (he : machineSummary rows = []) :
    runPipeline p t = .ok ([], { worked := 0, wpc := 0, pct := 0 }) := by
  unfold runPipeline
  rw [hl]
  show runTransform t = _
  unfold runTransform
  rw [hs]
  show Except.ok (machineSummary rows, grandTotalOf (machineSummary rows)) = _
  rw [he]
  unfold grandTotalOf
  norm_num

/-- Witness for C10: the all-below-threshold input `exRows0`, loaded from a
csv table with all five columns, yields the empty report. -/
theorem c10_empty_report_witness :
    runPipeline exPath exTable0 = .ok ([], { worked := 0, wpc := 0, pct := 0 }) :=
  c10_empty_report exPath exTable0 exRows0 rfl rfl ex0_machineSummary

end ReportApp
